import Mathlib

/-!
Verification of the core of `fdb-correctness-watcher` (files `src/jira_client.py`
and `src/app.py`): a shallow embedding of the issue fetcher/normalizer and of the
SLA/noise classification and Slack-digest rendering, together with theorems about
the embedded definitions.

Modelling conventions:
* Python dict `.get` chains on the raw JSON records are modelled with `Option`
  fields and `Option.getD`.
* Timestamps: `datetime.fromisoformat` values are modelled by their epoch value
  in seconds (`Int`); `(datetime.now(tz) - t).days` is `(now - t).fdiv 86400`,
  since Python's `timedelta.days` floor-divides the signed total duration by one
  day.  A missing or empty timestamp string (`if created_str:` is falsy) is
  modelled as `none`.
* Python float arithmetic: the only float in scope is `sla_days * 0.8` compared
  against the integer `days_open`, and `int(sla_days * 0.8)`.  Writing
  `fl` for double rounding, `fl 0.8 = 0.8 * (1 + 2 ^ (-54 : Int))` exactly, so
  `sla_days * fl 0.8 = (4 * sla_days / 5) * (1 + 2 ^ (-54 : Int))` before
  rounding; when `5 ∣ 4 * sla_days` the relative distance of this product from
  the integer `4 * sla_days / 5` is under half an ulp, so the product rounds to
  exactly that integer, and otherwise the exact rational `4 * sla_days / 5` is
  at distance ≥ 1/5 from every integer while the float error is astronomically
  smaller.  Hence `days_open > sla_days * 0.8` in Python equals the exact
  integer comparison `5 * days_open > 4 * sla_days`, and `int(sla_days * 0.8)`
  equals truncating division `(4 * sla_days).tdiv 5`.  The embedding uses those
  exact forms.
* Python `sorted` on strings is a stable sort by code-point lexicographic
  order; it is embedded as `List.mergeSort` (stable) with Lean's `String`
  order, which is exactly code-point lexicographic order on the character
  lists.  `pandas.unique` returns values in order of first appearance, which is
  `List.eraseDups`.
-/

/-- Tests whether `pat` occurs at the start of `s` (character lists). -/
def listStartsWith : List Char → List Char → Bool
  | [], _ => true
  | _ :: _, [] => false
  | p :: ps, c :: cs => p == c && listStartsWith ps cs

/-- Tests whether `pat` occurs contiguously anywhere in `s` (character lists). -/
def listContainsSeq (pat : List Char) : List Char → Bool
  | [] => listStartsWith pat []
  | c :: cs => listStartsWith pat (c :: cs) || listContainsSeq pat cs

/-- Python's substring test `pat in s` on strings. -/
def strContainsSub (s pat : String) : Bool :=
  listContainsSeq pat.toList s.toList

/-- Python `sorted` on a list of strings: stable sort in code-point
lexicographic order. -/
def pySorted (l : List String) : List String :=
  l.mergeSort (fun a b => decide (a ≤ b))

/-- An object with a `name` field, e.g. the raw `status` / `priority` / link
`type` objects (`{"name": ...}`). -/
structure RawNamed where
  name : Option String
deriving DecidableEq

/-- The raw `assignee` object (`{"displayName": ..., "emailAddress": ...}`). -/
structure RawUser where
  displayName : Option String
  emailAddress : Option String
deriving DecidableEq

/-- The raw area custom field object (`customfield_11401`, `{"value": ...}`). -/
structure RawArea where
  value : Option String
deriving DecidableEq

/-- One entry of the raw `issuelinks` array (`{"type": {"name": ...}}`). -/
structure RawLink where
  type : Option RawNamed
deriving DecidableEq

/-- The raw `fields` object of one Jira issue, restricted to the fields the
client requests.  `created` / `updated` are the parsed timestamps (epoch
seconds); `none` models a missing or empty timestamp string. -/
structure RawFields where
  summary : Option String
  status : Option RawNamed
  priority : Option RawNamed
  assignee : Option RawUser
  created : Option Int
  updated : Option Int
  labels : Option (List String)
  area : Option RawArea
  issuelinks : Option (List RawLink)
deriving DecidableEq

/-- One raw issue record (`{"key": ..., "fields": {...}}`). -/
structure RawIssue where
  key : Option String
  fields : Option RawFields
deriving DecidableEq

/-- The empty dict that `issue.get("fields", {})` falls back to. -/
def emptyFields : RawFields :=
  ⟨none, none, none, none, none, none, none, none, none⟩

/-- One parsed (normalized) issue, as produced by
`JiraClient.parse_issues` in `src/jira_client.py`.  The `created` column (a
`%Y-%m-%d` display string in the source) is modelled by the parsed timestamp
itself; its formatting is irrelevant to every claim. -/
structure ParsedIssue where
  key : Option String
  summary : String
  status : String
  priority : String
  assignee : String
  assignee_email : String
  created : Option Int
  days_open : Int
  days_since_update : Int
  labels : List String
  area : String
  url : String
  duplicate_count : Nat
deriving DecidableEq

/-- Python `(datetime.now(tz) - t).days`: floor division of the signed
difference (in seconds) by 86400. -/
def timeDeltaDays (now t : Int) : Int :=
  (now - t).fdiv 86400

/-- The link-type name read in `parse_issues`:
`link.get("type", {}).get("name", "")`. -/
def linkTypeName (l : RawLink) : String :=
  match l.type with
  | some t => t.name.getD ""
  | none => ""

/-- The per-link test of `parse_issues`: `"duplicate" in link_type` after
lower-casing the link-type name. -/
def dupPred (l : RawLink) : Bool :=
  strContainsSub (linkTypeName l).toLower "duplicate"

/-- The accumulator loop of `parse_issues` that counts duplicate links
(`for link in issuelinks: ... duplicate_count += 1`). -/
def dupCountLoop : List RawLink → Nat → Nat
  | [], acc => acc
  | l :: ls, acc => dupCountLoop ls (if dupPred l then acc + 1 else acc)

/-- The body of the `for issue in issues` loop of `JiraClient.parse_issues`,
for one raw issue.  `now` is the current instant in epoch seconds. -/
def parse_issue (base_url : String) (now : Int) (issue : RawIssue) : ParsedIssue :=
  let fields := issue.fields.getD emptyFields
  let days_open : Int :=
    match fields.created with
    | some t => timeDeltaDays now t
    | none => 0
  let days_since_update : Int :=
    match fields.updated with
    | some t => timeDeltaDays now t
    | none => 0
  { key := issue.key
    summary := fields.summary.getD ""
    status :=
      match fields.status with
      | some s => s.name.getD "Unknown"
      | none => "Unknown"
    priority :=
      match fields.priority with
      | some p => p.name.getD "Unknown"
      | none => "Unknown"
    assignee :=
      match fields.assignee with
      | some a => a.displayName.getD "Unassigned"
      | none => "Unassigned"
    assignee_email :=
      match fields.assignee with
      | some a => a.emailAddress.getD ""
      | none => ""
    created := fields.created
    days_open := days_open
    days_since_update := days_since_update
    labels := fields.labels.getD []
    area :=
      match fields.area with
      | some a => a.value.getD "Unassigned"
      | none => "Unassigned"
    url := base_url ++ "/browse/" ++ (match issue.key with | some k => k | none => "None")
    duplicate_count := dupCountLoop (fields.issuelinks.getD []) 0 }

/-- `JiraClient.parse_issues`: the normalizer applied to every raw issue. -/
def parse_issues (base_url : String) (now : Int) (issues : List RawIssue) : List ParsedIssue :=
  issues.map (parse_issue base_url now)

/-- One upstream page response consumed by `JiraClient.fetch_issues`:
HTTP status code, response body text, the decoded `issues` array
(`data.get("issues", [])`) and the decoded continuation token
(`data.get("nextPageToken")`). -/
structure PageResponse where
  status_code : Nat
  text : String
  issues : List RawIssue
  nextPageToken : Option String
deriving DecidableEq

/-- Python truthiness of the continuation token: `if not next_page_token:
break` stops on a missing token and also on an empty-string token. -/
def tokenTruthy : Option String → Bool
  | some s => !(s == "")
  | none => false

/-- The `while True` loop of `JiraClient.fetch_issues`.  The upstream server is
modelled as the sequence of page responses it returns, consumed one per
request; `acc` is the `all_issues` accumulator.  The `[]` case (server list
exhausted while the loop still wants a page) does not arise in any statement
below, which always supplies enough pages for the loop to terminate. -/
def fetchLoop : List PageResponse → List RawIssue → Except (Nat × String) (List RawIssue)
  | [], acc => Except.ok acc
  | r :: rest, acc =>
    if r.status_code ≠ 200 then Except.error (r.status_code, r.text)
    else if tokenTruthy r.nextPageToken then fetchLoop rest (acc ++ r.issues)
    else Except.ok (acc ++ r.issues)

/-- `JiraClient.fetch_issues`: run the page loop from an empty accumulator.
A raised `Exception(f"JIRA API error: {status} - {text}")` is modelled as
`Except.error (status, text)`. -/
def fetch_issues (pages : List PageResponse) : Except (Nat × String) (List RawIssue) :=
  fetchLoop pages []

/-- A parsed issue after `apply_sla_rules` in `src/app.py` added the
`sla_limit` and `sla_status` columns. -/
structure SlaIssue extends ParsedIssue where
  sla_limit : Int
  sla_status : String
deriving DecidableEq

/-- A row after `main` added the `is_noisy` column
(`df["is_noisy"] = df["duplicate_count"] > duplicate_threshold`). -/
structure ClassifiedIssue extends SlaIssue where
  is_noisy : Bool
deriving DecidableEq

/-- `apply_sla_rules` from `src/app.py`: set `sla_limit = sla_days` and
`sla_status = "under" if days_open <= sla_days else "over"` on every row. -/
def apply_sla_rules (df : List ParsedIssue) (sla_days : Int) : List SlaIssue :=
  df.map (fun r =>
    { toParsedIssue := r
      sla_limit := sla_days
      sla_status := if r.days_open ≤ sla_days then "under" else "over" })

/-- The `is_noisy` column assignment of `main` in `src/app.py`:
`df["is_noisy"] = df["duplicate_count"] > duplicate_threshold`. -/
def markNoisy (df : List SlaIssue) (duplicate_threshold : Nat) : List ClassifiedIssue :=
  df.map (fun r =>
    { toSlaIssue := r
      is_noisy := decide (r.duplicate_count > duplicate_threshold) })

/-- The `totals` dict built by `main`
(`{"total": ..., "under_sla": ..., "over_sla": ...}`). -/
structure Totals where
  total : Nat
  under_sla : Nat
  over_sla : Nat
deriving DecidableEq

/-- The Python comparison `days_open > sla_days * 0.8` of
`generate_slack_message`, in its exact integer form (see the float analysis in
the header comment). -/
def aboveWarning (days_open : Int) (sla_days : Int) : Bool :=
  decide (5 * days_open > 4 * sla_days)

/-- The Python value `int(sla_days * 0.8)` (also `int(warning_threshold)`), in
its exact integer form: truncation toward zero of `4 * sla_days / 5`. -/
def warnFloor (sla_days : Int) : Int :=
  (4 * sla_days).tdiv 5

/-- The header and legend lines of `generate_slack_message` (everything the
function appends before computing the summary counts). -/
def legendLines (sla_days : Int) (duplicate_threshold : Nat) : List String :=
  ["*📊 FDB Correctness SLA Report*",
   "",
   "*Legend:*",
   "• 🟢 Under SLA (within limit)",
   "• 🟡 Warning (>" ++ toString (warnFloor sla_days) ++ "d of " ++ toString sla_days ++ "d SLA)",
   "• 🔴 Breached (> 14 days, over SLA)",
   "• 📢 Noisy (>" ++ toString duplicate_threshold ++ " duplicates)",
   ""]

/-- `over_sla = len(df[df["sla_status"] == "over"])` in
`generate_slack_message` (also the per-participant `breached` count). -/
def overCount (df : List SlaIssue) : Nat :=
  (df.filter (fun r => r.sla_status == "over")).length

/-- `warning_count = len(df[(df["days_open"] > warning_threshold) &
(df["sla_status"] == "under")])` in `generate_slack_message` (also the
per-participant `warnings` count). -/
def warnCount (df : List SlaIssue) (sla_days : Int) : Nat :=
  (df.filter (fun r => aboveWarning r.days_open sla_days && r.sla_status == "under")).length

/-- `under_sla = total - over_sla - warning_count` in
`generate_slack_message` (Python int subtraction, hence `Int`). -/
def okCount (df : List SlaIssue) (sla_days : Int) : Int :=
  (df.length : Int) - overCount df - warnCount df sla_days

/-- `total_duplicates = df["duplicate_count"].sum()`; the `duplicate_count`
column always exists in this model. -/
def totalDuplicates (df : List SlaIssue) : Nat :=
  (df.map (fun r => r.duplicate_count)).sum

/-- The summary block of `generate_slack_message`: the `*Summary:*` header,
the five count lines (annotated with `(of ...)` on three of them when `totals`
is supplied and disagrees on `total`), and the trailing blank line. -/
def summaryLines (df : List SlaIssue) (sla_days : Int) (totals : Option Totals) : List String :=
  let total := df.length
  let over_sla := overCount df
  let warning_count := warnCount df sla_days
  let under_sla := okCount df sla_days
  let total_duplicates := totalDuplicates df
  let plain :=
    ["• Total Tickets: " ++ toString total,
     "• 🔴 SLA Breached: " ++ toString over_sla,
     "• 🟡 SLA Warning (>" ++ toString (warnFloor sla_days) ++ "d): " ++ toString warning_count,
     "• 🟢 SLA OK: " ++ toString under_sla,
     "• 📋 Total Duplicates: " ++ toString total_duplicates]
  "*Summary:*" ::
    (match totals with
     | some t =>
       if t.total ≠ total then
         ["• Total Tickets: " ++ toString total ++ " (of " ++ toString t.total ++ ")",
          "• 🔴 SLA Breached: " ++ toString over_sla ++ " (of " ++ toString t.over_sla ++ ")",
          "• 🟡 SLA Warning (>" ++ toString (warnFloor sla_days) ++ "d): " ++ toString warning_count,
          "• 🟢 SLA OK: " ++ toString under_sla ++ " (of " ++ toString t.under_sla ++ ")",
          "• 📋 Total Duplicates: " ++ toString total_duplicates]
       else plain
     | none => plain) ++ [""]

/-- The working-set filter of `generate_slack_message`: when
`exclude_under_sla` is set, keep only rows that are over SLA or above the
warning threshold; otherwise `work_df = df.copy()`. -/
def workSet (exclude_under_sla : Bool) (df : List SlaIssue) (sla_days : Int) : List SlaIssue :=
  if exclude_under_sla then
    df.filter (fun r => r.sla_status == "over" || aboveWarning r.days_open sla_days)
  else df

/-- The per-row `is_noisy` check of the digest renderer
(`is_noisy = duplicate_count > duplicate_threshold` on line 190 of
`src/app.py`). -/
def rowIsNoisy (duplicate_threshold : Nat) (r : SlaIssue) : Bool :=
  decide (r.duplicate_count > duplicate_threshold)

/-- The per-issue indicator of the digest renderer: 🔴 when over SLA, else 🟡
above the warning threshold, else 🟢. -/
def issueIndicator (sla_days : Int) (r : SlaIssue) : String :=
  if r.sla_status == "over" then "🔴"
  else if aboveWarning r.days_open sla_days then "🟡"
  else "🟢"

/-- The `dup_str` suffix of an issue line: noisy issues get a 📢 marker,
non-noisy issues with at least one duplicate get a plain count, others
nothing. -/
def dupStr (duplicate_threshold : Nat) (r : SlaIssue) : String :=
  if rowIsNoisy duplicate_threshold r then ", 📢 " ++ toString r.duplicate_count ++ " dups"
  else if 0 < r.duplicate_count then ", " ++ toString r.duplicate_count ++ " dups"
  else ""

/-- Python `f"{row['key']}"`: a missing key renders as `"None"`. -/
def keyDisplay (r : SlaIssue) : String :=
  match r.key with
  | some k => k
  | none => "None"

/-- One issue line of the digest: indicator, link-formatted key (wrapped in
`*...* ⚠️` when noisy), priority, age, staleness and duplicate annotation. -/
def issueLine (sla_days : Int) (duplicate_threshold : Nat) (r : SlaIssue) : String :=
  "    • " ++ issueIndicator sla_days r ++ " " ++
  (if rowIsNoisy duplicate_threshold r then "*" else "") ++
  "<" ++ r.url ++ "|" ++ keyDisplay r ++ ">" ++
  (if rowIsNoisy duplicate_threshold r then "* ⚠️" else "") ++
  " [" ++ r.priority ++ "] " ++ toString r.days_open ++ "d old, upd " ++
  toString r.days_since_update ++ "d ago" ++ dupStr duplicate_threshold r

/-- `p_df = work_df[work_df["assignee"] == participant]`: the rows of one
participant, in working-set order. -/
def participantIssues (work : List SlaIssue) (participant : String) : List SlaIssue :=
  work.filter (fun r => r.assignee == participant)

/-- The `status_parts` list of the per-participant header. -/
def statusParts (exclude_under_sla : Bool) (breached warnings : Nat) (pLen : Nat) : List String :=
  (if 0 < breached then [toString breached ++ " breached"] else []) ++
  (if 0 < warnings then [toString warnings ++ " warning"] else []) ++
  (if 0 < (pLen : Int) - breached - warnings ∧ exclude_under_sla = false then
    [toString ((pLen : Int) - breached - warnings) ++ " ok"]
   else [])

/-- The per-participant header line
(`f"{indicator} *@{participant}* ({len(p_df)} tickets, {', '.join(status_parts)}):"`). -/
def participantHeader (exclude_under_sla : Bool) (sla_days : Int) (participant : String)
    (pdf : List SlaIssue) : String :=
  let breached := overCount pdf
  let warnings := warnCount pdf sla_days
  let indicator := if 0 < breached then "🔴" else if 0 < warnings then "🟡" else "🟢"
  indicator ++ " *@" ++ participant ++ "* (" ++ toString pdf.length ++ " tickets, " ++
    String.intercalate ", " (statusParts exclude_under_sla breached warnings pdf.length) ++ "):"

/-- One participant's block: header, that participant's issue lines in
working-set order, and the trailing blank separator line. -/
def participantBlock (exclude_under_sla : Bool) (sla_days : Int) (duplicate_threshold : Nat)
    (work : List SlaIssue) (participant : String) : List String :=
  participantHeader exclude_under_sla sla_days participant (participantIssues work participant) ::
    (participantIssues work participant).map (issueLine sla_days duplicate_threshold) ++ [""]

/-- `participants = sorted(work_df["assignee"].unique().tolist())`: distinct
assignees in order of first appearance, then sorted lexicographically. -/
def participants (work : List SlaIssue) : List String :=
  pySorted ((work.map (fun r => r.assignee)).eraseDups)

/-- The full line list built by `generate_slack_message` in `src/app.py`. -/
def slackLines (df : List SlaIssue) (sla_days : Int) (exclude_under_sla : Bool)
    (totals : Option Totals) (duplicate_threshold : Nat) : List String :=
  let pre := legendLines sla_days duplicate_threshold ++ summaryLines df sla_days totals
  let work := workSet exclude_under_sla df sla_days
  if work.length = 0 then
    pre ++ ["_No issues to report._"]
  else
    pre ++ ("*Per Participant:*" ::
      (participants work).flatMap
        (participantBlock exclude_under_sla sla_days duplicate_threshold work))

/-- `generate_slack_message`: the digest string, `"\n".join(lines)`. -/
def generate_slack_message (df : List SlaIssue) (sla_days : Int) (exclude_under_sla : Bool)
    (totals : Option Totals) (duplicate_threshold : Nat) : String :=
  String.intercalate "\n" (slackLines df sla_days exclude_under_sla totals duplicate_threshold)

/-- Sample raw issue used for concrete witness instances: complete record,
created/updated in the past relative to the sample `now`, one duplicate
link. -/
def sampleRaw : RawIssue :=
  { key := some "FDBCORE-1"
    fields := some
      { summary := some "test failure"
        status := some ⟨some "To Do"⟩
        priority := some ⟨some "High"⟩
        assignee := some ⟨some "Alice", some "alice@example.com"⟩
        created := some 0
        updated := some 0
        labels := some []
        area := some ⟨some "Storage"⟩
        issuelinks := some [⟨some ⟨some "Duplicate"⟩⟩] } }

/-- Sample raw issue whose timestamps lie one second in the future relative to
the sample instant `now = 0`. -/
def futureRaw : RawIssue :=
  { key := some "FDBCORE-2"
    fields := some { emptyFields with created := some 1, updated := some 1 } }

/-- Sample raw issue with no `fields` object at all. -/
def noneRaw : RawIssue :=
  { key := some "FDBCORE-3", fields := none }

/-- Sample parsed issue with `days_open` exactly at the default SLA limit. -/
def sampleParsed : ParsedIssue :=
  { key := some "FDBCORE-1"
    summary := "test failure"
    status := "To Do"
    priority := "High"
    assignee := "Alice"
    assignee_email := "alice@example.com"
    created := some 0
    days_open := 14
    days_since_update := 2
    labels := []
    area := "Storage"
    url := "https://snowflakecomputing.atlassian.net/browse/FDBCORE-1"
    duplicate_count := 3 }

/-- The classified row that `apply_sla_rules [sampleParsed] 14` produces. -/
def boundaryRow : SlaIssue :=
  { toParsedIssue := sampleParsed, sla_limit := 14, sla_status := "under" }

/-- The classified row that `markNoisy [boundaryRow] 3` produces:
`duplicate_count = 3` equals the threshold, hence not noisy. -/
def boundaryRowNoisy : ClassifiedIssue :=
  { toSlaIssue := boundaryRow, is_noisy := false }

/-- Sample row far under the SLA limit and under the warning threshold. -/
def quietRow : SlaIssue :=
  { toParsedIssue := { sampleParsed with days_open := 5 }
    sla_limit := 14
    sla_status := "under" }

/-- Sample successful page response carrying one issue and a continuation
token. -/
def goodPage : PageResponse :=
  { status_code := 200
    text := "ok"
    issues := [sampleRaw]
    nextPageToken := some "tok1" }

/-- Sample failing page response (HTTP 500). -/
def badPage : PageResponse :=
  { status_code := 500
    text := "Internal Server Error"
    issues := []
    nextPageToken := none }

/-- C1.  For every classified issue and every positive `sla_days` threshold,
`apply_sla_rules` sets `sla_status` to `"over"` iff `days_open > sla_days`
(strict), so an issue with `days_open` exactly equal to `sla_days` is
classified `"under"`, and `sla_limit` equals the threshold in effect. -/
theorem apply_sla_rules_classification (df : List ParsedIssue) (sla_days : Int)
    (hpos : 0 < sla_days) :
    ∀ r ∈ apply_sla_rules df sla_days,
      (r.sla_status = "over" ↔ r.days_open > sla_days) ∧
      (r.days_open = sla_days → r.sla_status = "under") ∧
      r.sla_limit = sla_days := by
  intro r hr
  simp only [apply_sla_rules, List.mem_map] at hr
  obtain ⟨x, -, rfl⟩ := hr
  show ((if x.days_open ≤ sla_days then "under" else "over") = "over" ↔
        x.days_open > sla_days) ∧
      (x.days_open = sla_days →
        (if x.days_open ≤ sla_days then "under" else "over") = "under") ∧
      sla_days = sla_days
  by_cases h : x.days_open ≤ sla_days
  · rw [if_pos h]
    exact ⟨⟨fun hov => absurd hov (by decide), fun hgt => absurd hgt (by omega)⟩,
      fun _ => rfl, rfl⟩
  · rw [if_neg h]
    exact ⟨⟨fun _ => by omega, fun _ => rfl⟩, fun heq => absurd heq (by omega), rfl⟩

/-- Witness for `apply_sla_rules_classification` at the boundary input
`days_open = sla_days = 14`. -/
theorem apply_sla_rules_classification_witness :
    (boundaryRow.sla_status = "over" ↔ boundaryRow.days_open > 14) ∧
    (boundaryRow.days_open = 14 → boundaryRow.sla_status = "under") ∧
    boundaryRow.sla_limit = 14 :=
  apply_sla_rules_classification [sampleParsed] 14 (by decide) boundaryRow (by decide)

/-- C2.  `is_noisy` is true iff `duplicate_count > duplicate_threshold`
(strict), an issue whose `duplicate_count` equals the threshold is not noisy,
and the same strict rule governs the noisy marker of the rendered digest: a
noisy issue line wraps the key in `*...*` with a trailing ⚠️ and shows the 📢
duplicate annotation, a non-noisy line shows neither. -/
theorem markNoisy_classification (df : List SlaIssue) (duplicate_threshold : Nat)
    (hpos : 0 < duplicate_threshold) :
    (∀ r ∈ markNoisy df duplicate_threshold,
        (r.is_noisy = true ↔ r.duplicate_count > duplicate_threshold) ∧
        (r.duplicate_count = duplicate_threshold → r.is_noisy = false)) ∧
    (∀ (sla_days : Int) (r : SlaIssue),
        (r.duplicate_count > duplicate_threshold →
          issueLine sla_days duplicate_threshold r =
            "    • " ++ issueIndicator sla_days r ++ " " ++ "*" ++
            "<" ++ r.url ++ "|" ++ keyDisplay r ++ ">" ++ "* ⚠️" ++
            " [" ++ r.priority ++ "] " ++ toString r.days_open ++ "d old, upd " ++
            toString r.days_since_update ++ "d ago" ++
            (", 📢 " ++ toString r.duplicate_count ++ " dups")) ∧
        (r.duplicate_count ≤ duplicate_threshold →
          issueLine sla_days duplicate_threshold r =
            "    • " ++ issueIndicator sla_days r ++ " " ++ "" ++
            "<" ++ r.url ++ "|" ++ keyDisplay r ++ ">" ++ "" ++
            " [" ++ r.priority ++ "] " ++ toString r.days_open ++ "d old, upd " ++
            toString r.days_since_update ++ "d ago" ++
            (if 0 < r.duplicate_count then ", " ++ toString r.duplicate_count ++ " dups"
             else ""))) := by
  constructor
  · intro r hr
    simp only [markNoisy, List.mem_map] at hr
    obtain ⟨x, -, rfl⟩ := hr
    refine ⟨?_, fun heq => ?_⟩
    · show decide (x.duplicate_count > duplicate_threshold) = true ↔
        x.duplicate_count > duplicate_threshold
      exact decide_eq_true_iff
    · show decide (x.duplicate_count > duplicate_threshold) = false
      have heq2 : x.duplicate_count = duplicate_threshold := heq
      simp [heq2]
  · intro sla_days r
    constructor
    · intro hgt
      have hn : rowIsNoisy duplicate_threshold r = true := by
        simp [rowIsNoisy, hgt]
      simp only [issueLine, dupStr, hn, if_pos rfl, if_true]
    · intro hle
      have hn : rowIsNoisy duplicate_threshold r = false := by
        simp [rowIsNoisy]
        omega
      simp only [issueLine, dupStr, hn, Bool.false_eq_true, if_false]

/-- Witness for `markNoisy_classification` at threshold 3 with a boundary row
(`duplicate_count = 3`, not noisy). -/
theorem markNoisy_classification_witness :
    (boundaryRowNoisy.is_noisy = true ↔ boundaryRowNoisy.duplicate_count > 3) ∧
    (boundaryRowNoisy.duplicate_count = 3 → boundaryRowNoisy.is_noisy = false) :=
  (markNoisy_classification [boundaryRow] 3 (by decide)).1 boundaryRowNoisy (by decide)

/-- C3 (amended).  When the created timestamp is absent the normalizer gives
`days_open = 0`, and for a created timestamp that does not lie in the future
(`t ≤ now`) it gives `days_open ≥ 0`; analogously for the updated timestamp.
(The original claim also asserted nonnegativity for future timestamps, which
fails: see `parse_days_nonneg_cex`.) -/
theorem parse_days_nonneg (base_url : String) (now : Int) (issue : RawIssue) :
    ((issue.fields.getD emptyFields).created = none →
      (parse_issue base_url now issue).days_open = 0) ∧
    (∀ t, (issue.fields.getD emptyFields).created = some t → t ≤ now →
      0 ≤ (parse_issue base_url now issue).days_open) ∧
    ((issue.fields.getD emptyFields).updated = none →
      (parse_issue base_url now issue).days_since_update = 0) ∧
    (∀ t, (issue.fields.getD emptyFields).updated = some t → t ≤ now →
      0 ≤ (parse_issue base_url now issue).days_since_update) := by
  have hopen : (parse_issue base_url now issue).days_open =
      match (issue.fields.getD emptyFields).created with
      | some t => timeDeltaDays now t
      | none => 0 := rfl
  have hupd : (parse_issue base_url now issue).days_since_update =
      match (issue.fields.getD emptyFields).updated with
      | some t => timeDeltaDays now t
      | none => 0 := rfl
  refine ⟨fun h => ?_, fun t ht hle => ?_, fun h => ?_, fun t ht hle => ?_⟩
  · rw [hopen, h]
  · rw [hopen, ht]
    exact Int.fdiv_nonneg (by omega) (by omega)
  · rw [hupd, h]
  · rw [hupd, ht]
    exact Int.fdiv_nonneg (by omega) (by omega)

/-- Witness for `parse_days_nonneg`: absent fields give 0; past timestamps
give nonnegative ages. -/
theorem parse_days_nonneg_witness :
    (parse_issue "b" 5 noneRaw).days_open = 0 ∧
    0 ≤ (parse_issue "b" 100000 sampleRaw).days_open ∧
    0 ≤ (parse_issue "b" 100000 sampleRaw).days_since_update :=
  ⟨(parse_days_nonneg "b" 5 noneRaw).1 rfl,
   (parse_days_nonneg "b" 100000 sampleRaw).2.1 0 rfl (by decide),
   (parse_days_nonneg "b" 100000 sampleRaw).2.2.2 0 rfl (by decide)⟩

/-- Counterexample to C3 as stated: an issue whose created timestamp lies one
second in the future of the current instant is normalized to
`days_open = -1 < 0`, refuting `days_open ≥ 0` for future timestamps. -/
theorem parse_days_nonneg_cex :
    ¬ (0 ≤ (parse_issue "https://snowflakecomputing.atlassian.net" 0 futureRaw).days_open) ∧
    ¬ (0 ≤ (parse_issue "https://snowflakecomputing.atlassian.net" 0
        futureRaw).days_since_update) := by
  constructor
  · show ¬ (0 ≤ timeDeltaDays 0 1)
    decide
  · show ¬ (0 ≤ timeDeltaDays 0 1)
    decide

/-- C4 (amended).  When `totals` is supplied and its `total` differs from the
working set's count, the Total / Breached / OK summary lines carry an
`(of <totals value>)` annotation but the Warning and Total Duplicates lines do
not; when `totals` is absent or its `total` equals the count, no summary line
carries the annotation.  (The original claim asserted the annotation on every
summary line; see `summary_totals_marking_cex`.) -/
theorem summary_totals_marking (df : List SlaIssue) (sla_days : Int) (t : Totals) :
    (summaryLines df sla_days none =
      ["*Summary:*",
       "• Total Tickets: " ++ toString df.length,
       "• 🔴 SLA Breached: " ++ toString (overCount df),
       "• 🟡 SLA Warning (>" ++ toString (warnFloor sla_days) ++ "d): " ++
         toString (warnCount df sla_days),
       "• 🟢 SLA OK: " ++ toString (okCount df sla_days),
       "• 📋 Total Duplicates: " ++ toString (totalDuplicates df),
       ""]) ∧
    (t.total = df.length → summaryLines df sla_days (some t) =
      ["*Summary:*",
       "• Total Tickets: " ++ toString df.length,
       "• 🔴 SLA Breached: " ++ toString (overCount df),
       "• 🟡 SLA Warning (>" ++ toString (warnFloor sla_days) ++ "d): " ++
         toString (warnCount df sla_days),
       "• 🟢 SLA OK: " ++ toString (okCount df sla_days),
       "• 📋 Total Duplicates: " ++ toString (totalDuplicates df),
       ""]) ∧
    (t.total ≠ df.length → summaryLines df sla_days (some t) =
      ["*Summary:*",
       "• Total Tickets: " ++ toString df.length ++ " (of " ++ toString t.total ++ ")",
       "• 🔴 SLA Breached: " ++ toString (overCount df) ++ " (of " ++
         toString t.over_sla ++ ")",
       "• 🟡 SLA Warning (>" ++ toString (warnFloor sla_days) ++ "d): " ++
         toString (warnCount df sla_days),
       "• 🟢 SLA OK: " ++ toString (okCount df sla_days) ++ " (of " ++
         toString t.under_sla ++ ")",
       "• 📋 Total Duplicates: " ++ toString (totalDuplicates df),
       ""]) := by
  refine ⟨rfl, fun h => ?_, fun h => ?_⟩
  · simp only [summaryLines]
    rw [if_neg (not_not_intro h)]
    rfl
  · simp only [summaryLines]
    rw [if_pos h]
    rfl

/-- Witness for `summary_totals_marking` on an empty working set with differing
and with agreeing totals. -/
theorem summary_totals_marking_witness :
    summaryLines [] 14 (some ⟨5, 3, 2⟩) =
      ["*Summary:*",
       "• Total Tickets: 0 (of 5)",
       "• 🔴 SLA Breached: 0 (of 2)",
       "• 🟡 SLA Warning (>11d): 0",
       "• 🟢 SLA OK: 0 (of 3)",
       "• 📋 Total Duplicates: 0",
       ""] ∧
    summaryLines [] 14 (some ⟨0, 0, 0⟩) =
      ["*Summary:*",
       "• Total Tickets: 0",
       "• 🔴 SLA Breached: 0",
       "• 🟡 SLA Warning (>11d): 0",
       "• 🟢 SLA OK: 0",
       "• 📋 Total Duplicates: 0",
       ""] :=
  ⟨(summary_totals_marking [] 14 ⟨5, 3, 2⟩).2.2 (by decide),
   (summary_totals_marking [] 14 ⟨0, 0, 0⟩).2.1 (by decide)⟩

/-- Counterexample to C4 as stated: with an empty working set, `sla_days = 14`
and `totals = {total: 5, under_sla: 3, over_sla: 2}` (so `total` differs from
the count 0), the rendered digest's Warning and Total Duplicates summary lines
carry no `(of ...)` annotation. -/
theorem summary_totals_marking_cex :
    (slackLines [] 14 false (some ⟨5, 3, 2⟩) 3)[11]? =
      some "• 🟡 SLA Warning (>11d): 0" ∧
    strContainsSub "• 🟡 SLA Warning (>11d): 0" "(of" = false ∧
    (slackLines [] 14 false (some ⟨5, 3, 2⟩) 3)[13]? =
      some "• 📋 Total Duplicates: 0" ∧
    strContainsSub "• 📋 Total Duplicates: 0" "(of" = false := by
  refine ⟨?_, by decide, ?_, by decide⟩ <;> rfl

/-- Helper: while every already-consumed page succeeded with a live
continuation token, reaching a non-success page makes the fetch loop return
the error built from that page's status code and body, whatever the
accumulator holds. -/
theorem fetchLoop_error_of_bad_page (pre : List PageResponse) (p : PageResponse)
    (rest : List PageResponse)
    (hok : ∀ q ∈ pre, q.status_code = 200 ∧ tokenTruthy q.nextPageToken = true)
    (hbad : p.status_code ≠ 200) :
    ∀ acc, fetchLoop (pre ++ p :: rest) acc = Except.error (p.status_code, p.text) := by
  induction pre with
  | nil =>
    intro acc
    simp only [List.nil_append, fetchLoop, if_pos hbad]
  | cons q qs ih =>
    intro acc
    have hq := hok q (List.mem_cons_self q qs)
    simp only [List.cons_append, fetchLoop, hq.1, hq.2]
    exact ih (fun x hx => hok x (List.mem_cons_of_mem q hx)) (acc ++ q.issues)

/-- C5.  If a page response of the fetch has a non-success status (the code
treats exactly 200 as success), the whole fetch returns the error carrying
that response's status code and body, and returns no issue records: the
records accumulated from the earlier successful pages are discarded. -/
theorem fetch_issues_abort (pre : List PageResponse) (p : PageResponse)
    (rest : List PageResponse)
    (hok : ∀ q ∈ pre, q.status_code = 200 ∧ tokenTruthy q.nextPageToken = true)
    (hbad : p.status_code ≠ 200) :
    fetch_issues (pre ++ p :: rest) = Except.error (p.status_code, p.text) ∧
    ∀ records, fetch_issues (pre ++ p :: rest) ≠ Except.ok records := by
  have h := fetchLoop_error_of_bad_page pre p rest hok hbad []
  exact ⟨h, fun records hr => by rw [fetch_issues, h] at hr; exact Except.noConfusion hr⟩

/-- Witness for `fetch_issues_abort`: one successful page carrying an issue
followed by an HTTP 500 page yields exactly the error with that status and
body. -/
theorem fetch_issues_abort_witness :
    fetch_issues [goodPage, badPage] = Except.error (500, "Internal Server Error") :=
  (fetch_issues_abort [goodPage] badPage [] (by decide) (by decide)).1

/-- Helper: the duplicate-link counting loop of `parse_issues` adds the number
of links matching the case-insensitive `"duplicate"` substring test to its
accumulator. -/
theorem dupCountLoop_eq_countP (ls : List RawLink) :
    ∀ acc, dupCountLoop ls acc = acc + ls.countP dupPred := by
  induction ls with
  | nil => intro acc; simp [dupCountLoop, List.countP_nil]
  | cons l ls ih =>
    intro acc
    by_cases h : dupPred l
    · rw [dupCountLoop, if_pos h, ih, List.countP_cons, if_pos h]
      omega
    · rw [dupCountLoop, if_neg h, ih, List.countP_cons, if_neg h]
      omega

/-- C6.  The normalizer computes `duplicate_count` as the number of entries of
the issue's link list whose link-type name contains `"duplicate"`
case-insensitively (`dupPred` lower-cases the name before the substring test);
every matching link increments the count, with no deduplication, and an issue
with no link list gets `duplicate_count = 0`. -/
theorem duplicate_count_characterization (base_url : String) (now : Int) (issue : RawIssue) :
    (parse_issue base_url now issue).duplicate_count =
      ((issue.fields.getD emptyFields).issuelinks.getD []).countP dupPred ∧
    ((issue.fields.getD emptyFields).issuelinks = none →
      (parse_issue base_url now issue).duplicate_count = 0) ∧
    (∀ (l : RawLink) (ls : List RawLink),
      dupCountLoop (l :: ls) 0 = (if dupPred l then 1 else 0) + dupCountLoop ls 0) := by
  have hmain : (parse_issue base_url now issue).duplicate_count =
      ((issue.fields.getD emptyFields).issuelinks.getD []).countP dupPred := by
    show dupCountLoop ((issue.fields.getD emptyFields).issuelinks.getD []) 0 = _
    rw [dupCountLoop_eq_countP]
    omega
  refine ⟨hmain, fun h => ?_, fun l ls => ?_⟩
  · rw [hmain, h]
    rfl
  · rw [dupCountLoop_eq_countP, dupCountLoop_eq_countP, List.countP_cons]
    by_cases h : dupPred l
    · rw [if_pos h]; omega
    · rw [if_neg h]; omega

/-- Witness for `duplicate_count_characterization`: an issue record without a
`fields` object has no link list and normalizes to `duplicate_count = 0`. -/
theorem duplicate_count_characterization_witness :
    (parse_issue "b" 0 noneRaw).duplicate_count = 0 :=
  (duplicate_count_characterization "b" 0 noneRaw).2.1 rfl

/-- Helper: two filters with pointwise incompatible predicates select at most
the whole list between them. -/
theorem length_filter_add_length_filter_le {α : Type} (p q : α → Bool)
    (hpq : ∀ x, ¬(p x = true ∧ q x = true)) (l : List α) :
    (l.filter p).length + (l.filter q).length ≤ l.length := by
  induction l with
  | nil => simp
  | cons a l ih =>
    cases hp : p a <;> cases hq : q a
    · simp only [List.filter_cons, hp, hq, Bool.false_eq_true, if_false, List.length_cons]
      omega
    · simp only [List.filter_cons, hp, hq, Bool.false_eq_true, if_false, if_pos rfl,
        ite_true, List.length_cons]
      omega
    · simp only [List.filter_cons, hp, hq, Bool.false_eq_true, if_false, if_pos rfl,
        ite_true, List.length_cons]
      omega
    · exact absurd ⟨hp, hq⟩ (hpq a)

/-- C7.  The digest summary counts reconcile: breached (`sla_status = "over"`)
plus warning (`sla_status = "under"` and `days_open` above the warning
threshold) plus ok equals the total count of the input dataset, and each of
the three counts is nonnegative (`okCount` is a Python int difference, so its
nonnegativity is a real statement). -/
theorem summary_counts_reconcile (df : List SlaIssue) (sla_days : Int) :
    (overCount df : Int) + warnCount df sla_days + okCount df sla_days = df.length ∧
    0 ≤ (overCount df : Int) ∧ 0 ≤ (warnCount df sla_days : Int) ∧
    0 ≤ okCount df sla_days := by
  have hdisj : ∀ r : SlaIssue,
      ¬((r.sla_status == "over") = true ∧
        (aboveWarning r.days_open sla_days && r.sla_status == "under") = true) := by
    intro r ⟨h1, h2⟩
    rw [beq_iff_eq] at h1
    rw [Bool.and_eq_true, beq_iff_eq] at h2
    rw [h1] at h2
    exact absurd h2.2 (by decide)
  have hle : overCount df + warnCount df sla_days ≤ df.length :=
    length_filter_add_length_filter_le _ _ hdisj df
  refine ⟨?_, by omega, by omega, ?_⟩
  · rw [okCount]
    ring
  · rw [okCount]
    omega

/-- C8.  With `exclude_under_sla` set, the working set retains exactly the
issues with `sla_status = "over"` or `days_open` above the warning threshold
`sla_days * 0.8`; and whenever the working set is empty after this filter,
the digest after the legend and summary blocks is exactly the single
`_No issues to report._` line and nothing else (no per-participant
section). -/
theorem workSet_filter_and_empty_digest (df : List SlaIssue) (sla_days : Int)
    (totals : Option Totals) (duplicate_threshold : Nat) :
    (∀ r, r ∈ workSet true df sla_days ↔
      r ∈ df ∧ (r.sla_status = "over" ∨ aboveWarning r.days_open sla_days = true)) ∧
    (workSet true df sla_days = [] →
      slackLines df sla_days true totals duplicate_threshold =
        legendLines sla_days duplicate_threshold ++ summaryLines df sla_days totals ++
          ["_No issues to report._"]) := by
  constructor
  · intro r
    show r ∈ df.filter _ ↔ _
    rw [List.mem_filter]
    constructor
    · rintro ⟨hm, hcond⟩
      rcases Bool.or_eq_true .. |>.mp hcond with h | h
      · exact ⟨hm, Or.inl (beq_iff_eq.mp h)⟩
      · exact ⟨hm, Or.inr h⟩
    · rintro ⟨hm, h | h⟩
      · exact ⟨hm, Bool.or_eq_true .. |>.mpr (Or.inl (beq_iff_eq.mpr h))⟩
      · exact ⟨hm, Bool.or_eq_true .. |>.mpr (Or.inr h)⟩
  · intro hempty
    simp only [slackLines, hempty, List.length_nil]
    rw [if_pos trivial, List.append_assoc]

/-- Witness for `workSet_filter_and_empty_digest`: a single under-SLA,
non-warning issue is filtered out, and the digest ends with the no-issues
line. -/
theorem workSet_filter_and_empty_digest_witness :
    slackLines [quietRow] 14 true none 3 =
      legendLines 14 3 ++ summaryLines [quietRow] 14 none ++ ["_No issues to report._"] :=
  (workSet_filter_and_empty_digest [quietRow] 14 none 3).2 (by decide)

/-- Helper: the working set is always a sublist of the input dataset (the
exclude branch filters, the other branch is the identity). -/
theorem workSet_sublist (exclude_under_sla : Bool) (df : List SlaIssue) (sla_days : Int) :
    (workSet exclude_under_sla df sla_days).Sublist df := by
  cases exclude_under_sla
  · exact List.Sublist.refl df
  · exact List.filter_sublist df

/-- C9.  In every rendered digest the assignees appear in lexicographic
(code-point) order of their display name, and within one assignee's block the
issue rows are a sublist of the input dataset, i.e. they appear in exactly the
relative order those issues occupied in the input (no re-sorting within an
assignee); the block's lines are those rows mapped in order. -/
theorem digest_ordering (df : List SlaIssue) (sla_days : Int) (exclude_under_sla : Bool)
    (duplicate_threshold : Nat) :
    List.Pairwise (fun a b : String => a ≤ b)
      (participants (workSet exclude_under_sla df sla_days)) ∧
    (∀ p, (participantIssues (workSet exclude_under_sla df sla_days) p).Sublist df) ∧
    (∀ p, participantBlock exclude_under_sla sla_days duplicate_threshold
        (workSet exclude_under_sla df sla_days) p =
      participantHeader exclude_under_sla sla_days p
          (participantIssues (workSet exclude_under_sla df sla_days) p) ::
        (participantIssues (workSet exclude_under_sla df sla_days) p).map
          (issueLine sla_days duplicate_threshold) ++ [""]) := by
  refine ⟨?_, fun p => ?_, fun p => rfl⟩
  · exact List.sorted_mergeSort'
      ((workSet exclude_under_sla df sla_days).map (fun r => r.assignee)).eraseDups
  · exact ((List.filter_sublist _).trans (workSet_sublist exclude_under_sla df sla_days))

/-- C10.  For every value of `sla_days` (and of every other argument), the
rendered digest's breached legend line is the constant string
`"• 🔴 Breached (> 14 days, over SLA)"` — hard-coded 14, independent of the
`sla_days` parameter actually used for classification — while the warning
legend line on the previous row is computed from `sla_days`, showing
`int(sla_days * 0.8)` and `sla_days` themselves.  Hence for `sla_days ≠ 14`
the breached legend does not state the threshold in effect. -/
theorem legend_breached_constant (df : List SlaIssue) (sla_days : Int)
    (exclude_under_sla : Bool) (totals : Option Totals) (duplicate_threshold : Nat) :
    (slackLines df sla_days exclude_under_sla totals duplicate_threshold)[5]? =
      some "• 🔴 Breached (> 14 days, over SLA)" ∧
    (slackLines df sla_days exclude_under_sla totals duplicate_threshold)[4]? =
      some ("• 🟡 Warning (>" ++ toString (warnFloor sla_days) ++ "d of " ++
        toString sla_days ++ "d SLA)") := by
  have hlen : (legendLines sla_days duplicate_threshold).length = 8 := rfl
  have h5 : ∀ tail : List String,
      (legendLines sla_days duplicate_threshold ++ tail)[5]? =
        some "• 🔴 Breached (> 14 days, over SLA)" := by
    intro tail
    rw [List.getElem?_append_left (by omega)]
    rfl
  have h4 : ∀ tail : List String,
      (legendLines sla_days duplicate_threshold ++ tail)[4]? =
        some ("• 🟡 Warning (>" ++ toString (warnFloor sla_days) ++ "d of " ++
          toString sla_days ++ "d SLA)") := by
    intro tail
    rw [List.getElem?_append_left (by omega)]
    rfl
  constructor
  · simp only [slackLines]
    split
    · rw [List.append_assoc]
      exact h5 _
    · rw [List.append_assoc]
      exact h5 _
  · simp only [slackLines]
    split
    · rw [List.append_assoc]
      exact h4 _
    · rw [List.append_assoc]
      exact h4 _
